import Mathlib

/-!
Shallow embedding of the iaura-learning study-aid application core:
the quiz session state machine (`src/pages/Quizzes.tsx`), the material
persistence fan-out (`Materials` page, `saveMaterialAndContent`), and
the AI-response fence-stripping logic of the two edge functions
(`process-material`, `generate-from-topic`).

JavaScript strings are modelled as `List Char` where character-level
manipulation matters (trim, fence stripping) and as `String` elsewhere.
Machine numbers are modelled as `Nat`/`ℚ`: the only arithmetic the code
performs is counting, index clamping and one percentage division, all far
from any overflow or precision boundary.  A supabase call is modelled by
its outcome (success flag / error value) passed in as an argument, since
the network is outside the program.
-/

namespace Iaura

/-! ## String helpers (JS `trim` and the fence regexes) -/

/-- Model of JS `String.prototype.trim`, left side: drop leading whitespace. -/
def ltrim (cs : List Char) : List Char := cs.dropWhile Char.isWhitespace

/-- Model of JS `String.prototype.trim`, right side: drop trailing whitespace. -/
def rtrim (cs : List Char) : List Char :=
  (cs.reverse.dropWhile Char.isWhitespace).reverse

/-- Model of JS `String.prototype.trim` (the sources only ever feed it ASCII). -/
def jsTrim (cs : List Char) : List Char := rtrim (ltrim cs)

/-- `jsTrim` lifted to `String`. -/
def jsTrimStr (s : String) : String := String.mk (jsTrim s.toList)

/-- The labeled fence opener the edge functions test with `startsWith` (7 chars). -/
def fenceJson : List Char := "```json".toList

/-- The unlabeled fence (3 backticks). -/
def fence : List Char := "```".toList

/-- Model of `.replace(/\s*` followed by three backticks and `$/, '')` from the
edge functions: if the text ends in three backticks, remove them together with
the maximal whitespace run immediately before them; otherwise leave the text
unchanged (the regex is anchored at the end and replaces its first match). -/
def stripTrailingFence (cs : List Char) : List Char :=
  if fence.reverse.isPrefixOf cs.reverse then
    ((cs.reverse.drop 3).dropWhile Char.isWhitespace).reverse
  else cs

/-- Model of the cleaning block of `process-material` / `generate-from-topic`:
`cleanedContent = aiContent.trim()`, then strip a leading labeled or unlabeled
fence (greedy trailing whitespace) and a trailing fence. -/
def cleanAIContent (cs : List Char) : List Char :=
  if fenceJson.isPrefixOf (jsTrim cs) then
    stripTrailingFence (((jsTrim cs).drop 7).dropWhile Char.isWhitespace)
  else if fence.isPrefixOf (jsTrim cs) then
    stripTrailingFence (((jsTrim cs).drop 3).dropWhile Char.isWhitespace)
  else jsTrim cs

/-! ## Quiz session state machine (`src/pages/Quizzes.tsx`) -/

/-- A quiz row as listed on the Browsing screen. -/
structure QuizMeta where
  id : String
  title : String
deriving DecidableEq, Repr

/-- The JS `options` column: `null`/missing, a JSON array, or a JSON object
(the component accepts both shapes; `Object.keys` length is tested for the
object shape). -/
inductive Options where
  | null
  | arr (l : List String)
  | obj (l : List (String × String))
deriving DecidableEq, Repr

/-- The filter from `loadQuiz` line 123:
`q.options && (Array.isArray(q.options) ? q.options.length > 0 :
Object.keys(q.options || \x7b\x7d).length > 0)`. -/
def hasOptions : Options → Bool
  | Options.null => false
  | Options.arr l => decide (l.length > 0)
  | Options.obj l => decide (l.length > 0)

/-- A question row fetched for a quiz. -/
structure Question where
  id : String
  question_text : String
  question_type : String
  options : Options
  correct_answer : String
  explanation : Option String
deriving DecidableEq, Repr

/-- The component state of the quiz page that the claims are about. -/
structure QuizSession where
  selectedQuiz : Option QuizMeta
  questions : List Question
  currentQuestionIndex : Nat
  userAnswers : List (String × String)
  showResults : Bool
deriving DecidableEq, Repr

/-- Errors surfaced as toasts by the quiz page. -/
inductive Toast where
  | success (msg : String)
  | error (msg : String)
deriving DecidableEq, Repr

/-- The error the spec calls `NotFoundOrEmpty`. -/
inductive LoadError where
  | notFoundOrEmpty
deriving DecidableEq, Repr

/-- Model of `loadQuiz`: fetch all questions of the quiz, filter to those with
non-empty options; if none remain, surface an error and leave the component
state untouched (the early `return` skips every setter); otherwise enter the
quiz with index 0, empty answers and results hidden. -/
def loadQuiz (s : QuizSession) (quiz : QuizMeta) (fetched : List Question) :
    QuizSession × Option LoadError :=
  let validQuestions := fetched.filter (fun q => hasOptions q.options)
  if validQuestions.length = 0 then
    (s, some LoadError.notFoundOrEmpty)
  else
    ({ selectedQuiz := some quiz
       questions := validQuestions
       currentQuestionIndex := 0
       userAnswers := []
       showResults := false }, none)

/-- Model of `handleAnswerSelect`: spread-update of the answers record; the
new binding shadows any earlier one for the same question id. -/
def handleAnswerSelect (s : QuizSession) (questionId answer : String) : QuizSession :=
  { s with userAnswers := (questionId, answer) :: s.userAnswers }

/-- Model of `handleNext`: advance iff not at the last index. -/
def handleNext (s : QuizSession) : QuizSession :=
  if s.currentQuestionIndex < s.questions.length - 1 then
    { s with currentQuestionIndex := s.currentQuestionIndex + 1 }
  else s

/-- Model of `handlePrevious`: go back iff not at index 0. -/
def handlePrevious (s : QuizSession) : QuizSession :=
  if s.currentQuestionIndex > 0 then
    { s with currentQuestionIndex := s.currentQuestionIndex - 1 }
  else s

/-- The in-progress operations of the session. -/
inductive QuizOp where
  | next
  | previous
  | select (questionId answer : String)
deriving DecidableEq, Repr

/-- Apply one in-progress operation. -/
def applyOp (s : QuizSession) : QuizOp → QuizSession
  | QuizOp.next => handleNext s
  | QuizOp.previous => handlePrevious s
  | QuizOp.select qid ans => handleAnswerSelect s qid ans

/-- Apply a sequence of in-progress operations, oldest first. -/
def applyOps (ops : List QuizOp) (s : QuizSession) : QuizSession :=
  ops.foldl applyOp s

/-- The scoring reduce of `handleSubmit` (lines 163-165):
`questions.reduce((acc, q) => acc + (userAnswers[q.id] === q.correct_answer ? 1 : 0), 0)`.
An absent answer (`undefined`) is never `===` a string column value. -/
def computeScoreSubmit (questions : List Question) (answers : List (String × String)) : Nat :=
  questions.foldl
    (fun acc q => acc + (if answers.lookup q.id = some q.correct_answer then 1 else 0)) 0

/-- The identical scoring reduce recomputed by the results view (lines 282-284). -/
def computeScoreResults (questions : List Question) (answers : List (String × String)) : Nat :=
  questions.foldl
    (fun acc q => acc + (if answers.lookup q.id = some q.correct_answer then 1 else 0)) 0

/-- `const percentage = (score / questions.length) * 100` (line 167), exact. -/
def percentageSubmit (questions : List Question) (answers : List (String × String)) : ℚ :=
  ((computeScoreSubmit questions answers : ℚ) / (questions.length : ℚ)) * 100

/-- `percentage.toFixed(0)`: for the nonnegative percentages this page shows,
JS `toFixed(0)` rounds to the nearest integer, ties up, which is `round`. -/
def displayPercentage (p : ℚ) : ℤ := round p

/-- The `quiz_attempts` row built at submit (lines 170-175). -/
structure QuizAttemptRow where
  user_id : Option String
  quiz_id : Option String
  score : ℚ
  total_questions : Nat
deriving DecidableEq, Repr

/-- Model of `handleSubmit`: compute the score and percentage, attempt the
`quiz_attempts` insert (outcome: `insertOk = true` means the awaited call
returned, `false` means it threw and control jumped to the `catch` block).
Returns (new state, attempted row, whether the row was persisted, toasts).
`setShowResults(true)` sits after the `await` inside the `try`, so it only
runs when the insert did not throw. -/
def handleSubmit (user : Option String) (s : QuizSession) (insertOk : Bool) :
    QuizSession × QuizAttemptRow × Bool × List Toast :=
  let score := computeScoreSubmit s.questions s.userAnswers
  let percentage : ℚ := ((score : ℚ) / (s.questions.length : ℚ)) * 100
  let row : QuizAttemptRow :=
    { user_id := user
      quiz_id := s.selectedQuiz.map QuizMeta.id
      score := percentage
      total_questions := s.questions.length }
  if insertOk then
    ({ s with showResults := true }, row, true, [Toast.success "Quiz completed!"])
  else
    (s, row, false, [Toast.error "Failed to save quiz results"])

/-- Model of `resetQuiz`: discard everything unconditionally. -/
def resetQuiz (s : QuizSession) : QuizSession :=
  { s with
    selectedQuiz := none
    questions := []
    currentQuestionIndex := 0
    userAnswers := []
    showResults := false }

/-! ## Quiz deletion (`handleDeleteConfirm`, lines 79-110) -/

/-- A stored question row as the deletion handler sees it. -/
structure DbQuestion where
  id : String
  quiz_id : String
deriving DecidableEq, Repr

/-- The state the deletion handler touches: the server rows and the in-memory
`quizzes` list of the Browsing screen. -/
structure DeleteState where
  quizzes : List QuizMeta
  dbQuizzes : List QuizMeta
  dbQuestions : List DbQuestion
deriving DecidableEq, Repr

/-- Observable storage operations issued by the deletion handler, in order. -/
inductive DeleteEvent where
  | deleteQuestionsOf (quizId : String)
  | deleteQuizRow (quizId : String)
  | refetchQuizzes
deriving DecidableEq, Repr

/-- Model of `handleDeleteConfirm`: nothing happens without a pending id;
otherwise delete all questions of the quiz (throw on error), then the quiz row
(throw on error), then drop the quiz from the in-memory list by `filter` -- no
re-fetch.  A failed delete statement deletes nothing and jumps to the `catch`. -/
def handleDeleteConfirm (quizToDelete : Option String) (st : DeleteState)
    (questionsDelOk quizDelOk : Bool) : DeleteState × List DeleteEvent × List Toast :=
  match quizToDelete with
  | none => (st, [], [])
  | some qid =>
    if questionsDelOk = false then
      (st, [DeleteEvent.deleteQuestionsOf qid], [Toast.error "Failed to delete quiz"])
    else
      let st1 := { st with dbQuestions := st.dbQuestions.filter (fun q => q.quiz_id ≠ qid) }
      if quizDelOk = false then
        (st1, [DeleteEvent.deleteQuestionsOf qid, DeleteEvent.deleteQuizRow qid],
          [Toast.error "Failed to delete quiz"])
      else
        ({ st1 with
            dbQuizzes := st1.dbQuizzes.filter (fun q => q.id ≠ qid)
            quizzes := st.quizzes.filter (fun quiz => quiz.id ≠ qid) },
          [DeleteEvent.deleteQuestionsOf qid, DeleteEvent.deleteQuizRow qid],
          [Toast.success "Quiz deleted successfully!"])

/-! ## Persistence fan-out (`saveMaterialAndContent` on the Materials page) -/

/-- One entry of `generatedData.flashcards`. -/
structure FlashcardInput where
  question : String
  answer : String
  difficulty : Option String
deriving DecidableEq, Repr

/-- One entry of `generatedData.quiz_questions`. -/
structure QuestionInput where
  question : String
  qtype : String
  options : Option (List String)
  correct_answer : String
  explanation : Option String
deriving DecidableEq, Repr

/-- The parsed generation result.  `none` models an absent (or `null`) field,
which is JS-falsy; a present array -- even an empty one -- is truthy, and the
source guards steps 3 and 4 with truthiness plus `Array.isArray`. -/
structure GeneratedData where
  title : Option String
  summary : String
  key_points : Option (List String)
  examples : Option (List String)
  flashcards : Option (List FlashcardInput)
  quiz_questions : Option (List QuestionInput)
deriving DecidableEq, Repr

/-- JS `a || b` for the string fields the fan-out defaults
(`card.difficulty || "medium"`): empty string is falsy. -/
def jsOrString (v : Option String) (dflt : String) : String :=
  match v with
  | some s => if s = "" then dflt else s
  | none => dflt

/-- A `materials` row. -/
structure MaterialRow where
  id : Nat
  user_id : String
  title : String
  content : String
  source_type : String
  summary : String
deriving DecidableEq, Repr

/-- A `notes` row as inserted by step 2. -/
structure NoteRow where
  user_id : String
  material_id : Nat
  title : String
  content : String
  key_points : Option (List String)
  examples : Option (List String)
deriving DecidableEq, Repr

/-- A `flashcards` row as inserted by step 3. -/
structure FlashcardRow where
  user_id : String
  material_id : Nat
  question : String
  answer : String
  difficulty : String
deriving DecidableEq, Repr

/-- A `quizzes` row as inserted by step 4. -/
structure QuizRow where
  id : Nat
  user_id : String
  material_id : Nat
  title : String
deriving DecidableEq, Repr

/-- A `questions` row as inserted by step 4. -/
structure QuestionRow where
  quiz_id : Nat
  question_text : String
  question_type : String
  options : Option (List String)
  correct_answer : String
  explanation : Option String
deriving DecidableEq, Repr

/-- The rows committed to storage by one run of the fan-out. -/
structure SaveRows where
  materials : List MaterialRow
  notes : List NoteRow
  flashcards : List FlashcardRow
  quizzes : List QuizRow
  questions : List QuestionRow
deriving DecidableEq, Repr

/-- No rows. -/
def emptyRows : SaveRows :=
  { materials := [], notes := [], flashcards := [], quizzes := [], questions := [] }

/-- The write steps of the fan-out, used to record which inserts were issued. -/
inductive SaveStep where
  | material
  | note
  | flashcards
  | quiz
  | questions
deriving DecidableEq, Repr

/-- Per-call outcome of each supabase insert: `true` means the call returned
without an error field, `false` means it reported an error.  Only the material
insert's error is inspected by the source (`if (materialError) throw`); the
note/flashcard/question insert results are discarded, and the quiz insert only
has its `data` destructured (`null` on error, so questions are skipped). -/
structure SaveOutcomes where
  materialOk : Bool
  noteOk : Bool
  flashcardsOk : Bool
  quizOk : Bool
  questionsOk : Bool
deriving DecidableEq, Repr

/-- All inserts succeed. -/
def allOk : SaveOutcomes :=
  { materialOk := true, noteOk := true, flashcardsOk := true,
    quizOk := true, questionsOk := true }

/-- Result of a fan-out run: committed rows, the inserts issued in order, and
whether the function threw (propagating to the caller's `catch`). -/
structure SaveRun where
  rows : SaveRows
  attempted : List SaveStep
  threw : Bool
deriving DecidableEq, Repr

/-- Model of `saveMaterialAndContent`.  `matId` and `quizId` stand for the
database-generated ids returned by the two `.select().single()` calls.
Step 1 inserts the material and throws on error, which aborts everything.
Step 2 runs iff `key_points` or `examples` is truthy; its result is ignored.
Step 3 runs iff `flashcards` is a present array; its result is ignored.
Step 4 runs iff `quiz_questions` is a present array; if the quiz insert
errors, `quiz` is `null` and the question insert is silently skipped. -/
def saveMaterialAndContent (userId materialTitle materialContent sourceType : String)
    (g : GeneratedData) (o : SaveOutcomes) (matId quizId : Nat) : SaveRun :=
  if o.materialOk = false then
    { rows := emptyRows, attempted := [SaveStep.material], threw := true }
  else
    let material : MaterialRow :=
      { id := matId, user_id := userId, title := materialTitle,
        content := materialContent, source_type := sourceType, summary := g.summary }
    let noteGuard := g.key_points.isSome || g.examples.isSome
    let noteRows : List NoteRow :=
      if noteGuard && o.noteOk then
        [{ user_id := userId, material_id := matId,
           title := materialTitle ++ " - Notes", content := g.summary,
           key_points := g.key_points, examples := g.examples }]
      else []
    let flashRows : List FlashcardRow :=
      match g.flashcards with
      | none => []
      | some cards =>
        if o.flashcardsOk then
          cards.map (fun card =>
            { user_id := userId, material_id := matId,
              question := card.question, answer := card.answer,
              difficulty := jsOrString card.difficulty "medium" })
        else []
    let quizRows : List QuizRow :=
      match g.quiz_questions with
      | none => []
      | some _ =>
        if o.quizOk then
          [{ id := quizId, user_id := userId, material_id := matId,
             title := materialTitle ++ " - Quiz" }]
        else []
    let questionRows : List QuestionRow :=
      match g.quiz_questions with
      | none => []
      | some qs =>
        if o.quizOk && o.questionsOk then
          qs.map (fun q =>
            { quiz_id := quizId, question_text := q.question,
              question_type := q.qtype, options := q.options,
              correct_answer := q.correct_answer, explanation := q.explanation })
        else []
    let attempted :=
      [SaveStep.material]
        ++ (if noteGuard then [SaveStep.note] else [])
        ++ (if g.flashcards.isSome then [SaveStep.flashcards] else [])
        ++ (if g.quiz_questions.isSome then
              SaveStep.quiz :: (if o.quizOk then [SaveStep.questions] else [])
            else [])
    { rows :=
        { materials := [material], notes := noteRows, flashcards := flashRows,
          quizzes := quizRows, questions := questionRows }
      attempted := attempted
      threw := false }

/-! ## Generation handlers (`handleTopicGenerate`, `handleTextSubmit`) and
the edge-function response processing -/

/-- Failure modes of one generation round-trip as the spec names them. -/
inductive GenError where
  | rateLimited
  | quotaExhausted
  | upstream
  | noContent
  | formatError
deriving DecidableEq, Repr

/-- Model of the shared response-processing tail of `process-material` and
`generate-from-topic`: clean the fenced text, then `JSON.parse` it (modelled
by the `parse` argument); a parse failure becomes the
"AI generated invalid JSON format" error (the spec's `GenerationFormatError`). -/
def processAIContent {α : Type} (parse : List Char → Option α)
    (aiContent : List Char) : Except GenError α :=
  match parse (cleanAIContent aiContent) with
  | some v => Except.ok v
  | none => Except.error GenError.formatError

/-- Observable effects of the Materials-page handlers. -/
inductive GenEvent where
  | invokeEdgeFunction
  | navigateToNotes
deriving DecidableEq, Repr

/-- Result of one run of a Materials-page handler: events in order, committed
rows, and the toasts shown. -/
structure GenRun where
  events : List GenEvent
  rows : SaveRows
  toasts : List Toast
deriving DecidableEq, Repr

/-- Model of `handleTopicGenerate`: an empty/whitespace-only topic is rejected
with a toast before anything else runs; otherwise the edge function is invoked
and, on success, the fan-out is executed with its result. -/
def handleTopicGenerate (userId topic : String)
    (serverResult : Except GenError GeneratedData) (o : SaveOutcomes)
    (matId quizId : Nat) : GenRun :=
  if jsTrimStr topic = "" then
    { events := [], rows := emptyRows, toasts := [Toast.error "Please enter a topic"] }
  else
    match serverResult with
    | Except.error _ =>
      { events := [GenEvent.invokeEdgeFunction], rows := emptyRows,
        toasts := [Toast.error "Failed to generate materials"] }
    | Except.ok g =>
      let run := saveMaterialAndContent userId (jsOrString g.title topic)
        topic "ai_generated" g o matId quizId
      if run.threw then
        { events := [GenEvent.invokeEdgeFunction], rows := run.rows,
          toasts := [Toast.error "Failed to generate materials"] }
      else
        { events := [GenEvent.invokeEdgeFunction, GenEvent.navigateToNotes],
          rows := run.rows,
          toasts := [Toast.success "Study materials created successfully!"] }

/-- JS `substring(0, 100)` on the pasted text used for the material title. -/
def substr100 (s : String) : String := String.mk (s.toList.take 100)

/-- Model of `handleTextSubmit`: empty/whitespace-only pasted text is rejected
with a toast before anything else runs; otherwise mirrors the topic path with
the paste-specific title and source type. -/
def handleTextSubmit (userId text : String)
    (serverResult : Except GenError GeneratedData) (o : SaveOutcomes)
    (matId quizId : Nat) : GenRun :=
  if jsTrimStr text = "" then
    { events := [], rows := emptyRows,
      toasts := [Toast.error "Please enter some text to analyze"] }
  else
    match serverResult with
    | Except.error _ =>
      { events := [GenEvent.invokeEdgeFunction], rows := emptyRows,
        toasts := [Toast.error "Failed to process material"] }
    | Except.ok g =>
      let run := saveMaterialAndContent userId (substr100 text ++ "...")
        text "paste" g o matId quizId
      if run.threw then
        { events := [GenEvent.invokeEdgeFunction], rows := run.rows,
          toasts := [Toast.error "Failed to process material"] }
      else
        { events := [GenEvent.invokeEdgeFunction, GenEvent.navigateToNotes],
          rows := run.rows,
          toasts := [Toast.success "Material processed successfully!"] }

/-! ## Concrete example data used by witnesses and counterexamples -/

/-- A playable multiple-choice question. -/
def qA : Question :=
  { id := "a", question_text := "QA", question_type := "multiple_choice",
    options := Options.arr ["X", "Y"], correct_answer := "X", explanation := none }

/-- A second playable question. -/
def qB : Question :=
  { id := "b", question_text := "QB", question_type := "multiple_choice",
    options := Options.arr ["T", "F"], correct_answer := "T", explanation := some "E" }

/-- A third playable question. -/
def qC : Question :=
  { id := "c", question_text := "QC", question_type := "multiple_choice",
    options := Options.arr ["1", "2"], correct_answer := "2", explanation := none }

/-- A question with no options (filtered out at load). -/
def qNoOpt : Question :=
  { id := "n", question_text := "QN", question_type := "short_answer",
    options := Options.null, correct_answer := "42", explanation := none }

/-- A three-question session with question a answered correctly, b answered
wrongly, c unanswered (end-to-end scenario B of the spec). -/
def sessionB : QuizSession :=
  { selectedQuiz := some { id := "z1", title := "T" }
    questions := [qA, qB, qC]
    currentQuestionIndex := 2
    userAnswers := [("a", "X"), ("b", "F")]
    showResults := false }

/-- A one-question answered session used for the submit counterexample. -/
def sessionCex : QuizSession :=
  { selectedQuiz := some { id := "z1", title := "T" }
    questions := [qA]
    currentQuestionIndex := 0
    userAnswers := [("a", "X")]
    showResults := false }

/-- Generation data with notes and one flashcard, used for the fan-out
counterexample. -/
def gCex2 : GeneratedData :=
  { title := none, summary := "S", key_points := some ["k"], examples := none,
    flashcards := some [{ question := "f", answer := "a", difficulty := none }],
    quiz_questions := none }

/-- Outcomes where only the note insert reports an error. -/
def oNoteFails : SaveOutcomes :=
  { materialOk := true, noteOk := false, flashcardsOk := true,
    quizOk := true, questionsOk := true }

/-- Outcomes where the material insert reports an error. -/
def oMaterialFails : SaveOutcomes :=
  { materialOk := false, noteOk := true, flashcardsOk := true,
    quizOk := true, questionsOk := true }

/-- Generation data whose `quiz_questions` is a present but empty array. -/
def gCex5 : GeneratedData :=
  { title := none, summary := "S", key_points := none, examples := none,
    flashcards := none, quiz_questions := some [] }

/-- Generation data for the C5 witness: every optional field present. -/
def gFull : GeneratedData :=
  { title := some "T", summary := "S", key_points := some ["k1", "k2"],
    examples := some ["e1"],
    flashcards := some [{ question := "f1", answer := "a1", difficulty := some "hard" },
                        { question := "f2", answer := "a2", difficulty := none }],
    quiz_questions := some [{ question := "p1", qtype := "multiple_choice",
                              options := some ["A", "B"], correct_answer := "A",
                              explanation := none }] }

/-- The example body used by the fence-stripping witness. -/
def bodyW : List Char := "[1]".toList

/-- The parsed value the witness parser returns. -/
def gW : GeneratedData :=
  { title := none, summary := "W", key_points := none, examples := none,
    flashcards := none, quiz_questions := none }

/-- A concrete JSON-parser stand-in accepting exactly `bodyW`. -/
def parseW (cs : List Char) : Option GeneratedData :=
  if cs = bodyW then some gW else none

/-- The initial Browsing-screen session state. -/
def browsingState : QuizSession :=
  { selectedQuiz := none, questions := [], currentQuestionIndex := 0,
    userAnswers := [], showResults := false }

/-- The delete-state used by the deletion witness. -/
def deleteStateW : DeleteState :=
  { quizzes := [{ id := "z1", title := "T1" }, { id := "z2", title := "T2" }]
    dbQuizzes := [{ id := "z1", title := "T1" }, { id := "z2", title := "T2" }]
    dbQuestions := [{ id := "q1", quiz_id := "z1" }, { id := "q2", quiz_id := "z1" },
                    { id := "q3", quiz_id := "z2" }] }

/-! ## Helper lemmas -/

theorem foldl_score_eq (answers : List (String × String)) (l : List Question) (n : Nat) :
    l.foldl
        (fun acc q => acc + (if answers.lookup q.id = some q.correct_answer then 1 else 0)) n
      = n + l.countP (fun q => decide (answers.lookup q.id = some q.correct_answer)) := by
  induction l generalizing n with
  | nil => simp
  | cons q t ih =>
    rw [List.foldl_cons, ih, List.countP_cons]
    by_cases h : answers.lookup q.id = some q.correct_answer
    · simp [h]
      omega
    · simp [h]

theorem applyOp_questions (s : QuizSession) (op : QuizOp) :
    (applyOp s op).questions = s.questions := by
  cases op with
  | next => simp only [applyOp, handleNext]; split <;> rfl
  | previous => simp only [applyOp, handlePrevious]; split <;> rfl
  | select qid ans => rfl

theorem applyOps_questions (ops : List QuizOp) (s : QuizSession) :
    (applyOps ops s).questions = s.questions := by
  induction ops generalizing s with
  | nil => rfl
  | cons op rest ih =>
    show (applyOps rest (applyOp s op)).questions = s.questions
    rw [ih, applyOp_questions]

theorem applyOp_userAnswers_next (s : QuizSession) :
    (applyOp s QuizOp.next).userAnswers = s.userAnswers := by
  simp only [applyOp, handleNext]; split <;> rfl

theorem handleSubmit_row (user : Option String) (s : QuizSession) (b : Bool) :
    (handleSubmit user s b).2.1
      = { user_id := user
          quiz_id := s.selectedQuiz.map QuizMeta.id
          score := ((computeScoreSubmit s.questions s.userAnswers : ℚ)
              / (s.questions.length : ℚ)) * 100
          total_questions := s.questions.length } := by
  cases b <;> rfl

theorem applyOp_index_lt (s : QuizSession) (op : QuizOp)
    (h : s.currentQuestionIndex < s.questions.length) :
    (applyOp s op).currentQuestionIndex < (applyOp s op).questions.length := by
  cases op with
  | next =>
    by_cases hc : s.currentQuestionIndex < s.questions.length - 1
    · simp only [applyOp, handleNext, if_pos hc]
      show s.currentQuestionIndex + 1 < s.questions.length
      omega
    · simp only [applyOp, handleNext, if_neg hc]
      exact h
  | previous =>
    by_cases hc : s.currentQuestionIndex > 0
    · simp only [applyOp, handlePrevious, if_pos hc]
      show s.currentQuestionIndex - 1 < s.questions.length
      omega
    · simp only [applyOp, handlePrevious, if_neg hc]
      exact h
  | select qid ans => exact h

theorem applyOps_index_lt (ops : List QuizOp) (s : QuizSession)
    (h : s.currentQuestionIndex < s.questions.length) :
    (applyOps ops s).currentQuestionIndex < (applyOps ops s).questions.length := by
  induction ops generalizing s with
  | nil => exact h
  | cons op rest ih =>
    show (applyOps rest (applyOp s op)).currentQuestionIndex
        < (applyOps rest (applyOp s op)).questions.length
    exact ih (applyOp s op) (applyOp_index_lt s op h)

theorem length_dropWhile_le (p : Char → Bool) (l : List Char) :
    (l.dropWhile p).length ≤ l.length := by
  induction l with
  | nil => simp
  | cons a t ih =>
    rw [List.dropWhile_cons]
    split
    · exact Nat.le_trans ih (Nat.le_succ _)
    · exact Nat.le_refl _

theorem dropWhile_eq_self_append {xs : List Char} (ys : List Char) (hne : xs ≠ [])
    (h : xs.dropWhile Char.isWhitespace = xs) :
    (xs ++ ys).dropWhile Char.isWhitespace = xs ++ ys := by
  cases xs with
  | nil => exact absurd rfl hne
  | cons a t =>
    have hpa : ¬ (Char.isWhitespace a = true) := by
      intro hw
      rw [List.dropWhile_cons_of_pos hw] at h
      have hl := length_dropWhile_le Char.isWhitespace t
      rw [h] at hl
      simp at hl
    rw [List.cons_append, List.dropWhile_cons_of_neg hpa]

theorem isPrefixOf_append_self (xs ys : List Char) : xs.isPrefixOf (xs ++ ys) = true := by
  induction xs with
  | nil => simp [List.isPrefixOf]
  | cons a t ih => simp [List.isPrefixOf, ih]

theorem fenceJson_not_first (rest : List Char) :
    fenceJson.isPrefixOf (fence ++ ('\n' :: rest)) = false := rfl

theorem jsTrim_eq_self {cs : List Char} (h1 : cs.dropWhile Char.isWhitespace = cs)
    (h2 : cs.reverse.dropWhile Char.isWhitespace = cs.reverse) : jsTrim cs = cs := by
  unfold jsTrim ltrim rtrim
  rw [h1, h2, List.reverse_reverse]

theorem jsTrim_fence_wrapped (opener body : List Char) (hne : opener ≠ [])
    (hop : opener.dropWhile Char.isWhitespace = opener) :
    jsTrim (opener ++ ('\n' :: (body ++ ('\n' :: fence))))
      = opener ++ ('\n' :: (body ++ ('\n' :: fence))) := by
  apply jsTrim_eq_self
  · exact dropWhile_eq_self_append _ hne hop
  · have hrev : (opener ++ ('\n' :: (body ++ ('\n' :: fence)))).reverse
        = fence.reverse ++ ('\n' :: (body.reverse ++ ('\n' :: opener.reverse))) := by
      simp [List.reverse_append, List.append_assoc]
    rw [hrev]
    exact dropWhile_eq_self_append _ (by decide) (by decide)

theorem stripTrailingFence_append (body : List Char)
    (h2 : body.reverse.dropWhile Char.isWhitespace = body.reverse) :
    stripTrailingFence (body ++ ('\n' :: fence)) = body := by
  have hrev : (body ++ ('\n' :: fence)).reverse
      = fence.reverse ++ ('\n' :: body.reverse) := by
    rw [List.reverse_append, List.reverse_cons, List.append_assoc, List.singleton_append]
  unfold stripTrailingFence
  rw [hrev, if_pos (isPrefixOf_append_self fence.reverse _)]
  rw [List.drop_left' (show fence.reverse.length = 3 by decide)]
  rw [List.dropWhile_cons_of_pos (by decide), h2, List.reverse_reverse]

theorem cleanAIContent_fenced_json (body : List Char)
    (h1 : body.dropWhile Char.isWhitespace = body)
    (h2 : body.reverse.dropWhile Char.isWhitespace = body.reverse)
    (hne : body ≠ []) :
    cleanAIContent (fenceJson ++ ('\n' :: (body ++ ('\n' :: fence)))) = body := by
  unfold cleanAIContent
  rw [jsTrim_fence_wrapped fenceJson body (by decide) (by decide)]
  rw [if_pos (isPrefixOf_append_self fenceJson _)]
  rw [List.drop_left' (show fenceJson.length = 7 by decide)]
  rw [List.dropWhile_cons_of_pos (by decide)]
  rw [dropWhile_eq_self_append _ hne h1]
  exact stripTrailingFence_append body h2

theorem cleanAIContent_fenced_plain (body : List Char)
    (h1 : body.dropWhile Char.isWhitespace = body)
    (h2 : body.reverse.dropWhile Char.isWhitespace = body.reverse)
    (hne : body ≠ []) :
    cleanAIContent (fence ++ ('\n' :: (body ++ ('\n' :: fence)))) = body := by
  unfold cleanAIContent
  rw [jsTrim_fence_wrapped fence body (by decide) (by decide)]
  rw [if_neg (by simp [fenceJson_not_first])]
  rw [if_pos (isPrefixOf_append_self fence _)]
  rw [List.drop_left' (show fence.length = 3 by decide)]
  rw [List.dropWhile_cons_of_pos (by decide)]
  rw [dropWhile_eq_self_append _ hne h1]
  exact stripTrailingFence_append body h2

/-! ## Claim theorems -/

/-- C1: for every loaded question set and answer mapping, the score computed
at submit and the score recomputed for the results view both equal the number
of questions whose stored answer is exactly (case-sensitively) string-equal to
`correct_answer`; the stored percentage equals `(score / total_questions) * 100`
unrounded (the attempt row carries the exact rational), and display rounding is
a separate step (`displayPercentage`, e.g. 1 of 3 shows 33 -- see the witness). -/
theorem C1_scoring (s : QuizSession) (user : Option String) (insertOk : Bool)
    (_hne : s.questions ≠ []) :
    computeScoreSubmit s.questions s.userAnswers
        = s.questions.countP
            (fun q => decide (s.userAnswers.lookup q.id = some q.correct_answer))
      ∧ computeScoreResults s.questions s.userAnswers
          = computeScoreSubmit s.questions s.userAnswers
      ∧ (handleSubmit user s insertOk).2.1.score
          = percentageSubmit s.questions s.userAnswers
      ∧ (handleSubmit user s insertOk).2.1.total_questions = s.questions.length
      ∧ percentageSubmit s.questions s.userAnswers
          = ((computeScoreSubmit s.questions s.userAnswers : ℚ)
              / (s.questions.length : ℚ)) * 100 := by
  refine ⟨?_, rfl, ?_, ?_, rfl⟩
  · rw [computeScoreSubmit, foldl_score_eq]
    omega
  · unfold handleSubmit percentageSubmit
    cases insertOk <;> rfl
  · unfold handleSubmit
    cases insertOk <;> rfl

/-- C1 witness: scenario B of the spec -- three questions, one answered
correctly, one wrongly, one unanswered: score 1, stored percentage 100/3,
displayed percentage 33. -/
theorem C1_scoring_witness :
    sessionB.questions ≠ []
      ∧ computeScoreSubmit sessionB.questions sessionB.userAnswers = 1
      ∧ percentageSubmit sessionB.questions sessionB.userAnswers = 100 / 3
      ∧ displayPercentage (percentageSubmit sessionB.questions sessionB.userAnswers) = 33
      ∧ computeScoreSubmit sessionB.questions sessionB.userAnswers
          = sessionB.questions.countP
              (fun q => decide (sessionB.userAnswers.lookup q.id = some q.correct_answer)) :=
  by
  have hscore : computeScoreSubmit sessionB.questions sessionB.userAnswers = 1 := by decide
  have hlen : sessionB.questions.length = 3 := by decide
  have hperc : percentageSubmit sessionB.questions sessionB.userAnswers = 100 / 3 := by
    rw [percentageSubmit, hscore, hlen]
    norm_num
  refine ⟨by decide, hscore, hperc, ?_,
    (C1_scoring sessionB (some "u") true (by decide)).1⟩
  rw [hperc, displayPercentage, round_eq, Int.floor_eq_iff]
  constructor <;> norm_num

/-- C3 counterexample: with a one-question session answered correctly and a
quiz-attempt insert that throws, the error is reported but `showResults`
stays `false` -- the Results state is NOT entered, contradicting the claim
that attempt-logging failure never prevents the score from being shown. -/
theorem C3_counterexample :
    (handleSubmit (some "u") sessionCex false).1.showResults = false
      ∧ Toast.error "Failed to save quiz results"
          ∈ (handleSubmit (some "u") sessionCex false).2.2.2
      ∧ ¬ ((handleSubmit (some "u") sessionCex false).1.showResults = true) := by
  refine ⟨rfl, ?_, by simp [handleSubmit, sessionCex]⟩
  simp [handleSubmit, sessionCex]

/-- C3 (amended): if the quiz-attempt insert throws, the error is reported to
the user and the Results state is NOT entered (the state is returned
unchanged); the Results state, with the locally computed score in the attempt
row, is entered exactly when the insert succeeds. -/
theorem C3_amended (user : Option String) (s : QuizSession) :
    ((handleSubmit user s false).1 = s
        ∧ (handleSubmit user s false).2.2.2 = [Toast.error "Failed to save quiz results"]
        ∧ (handleSubmit user s false).2.2.1 = false)
      ∧ ((handleSubmit user s true).1.showResults = true
        ∧ (handleSubmit user s true).2.1.score = percentageSubmit s.questions s.userAnswers
        ∧ (handleSubmit user s true).2.2.1 = true) := by
  exact ⟨⟨rfl, rfl, rfl⟩, ⟨rfl, rfl, rfl⟩⟩

/-- C4: quiz load keeps exactly the questions with non-empty options; if none
remain the load surfaces an error and leaves the session untouched (still
Browsing); otherwise it enters the quiz with the filtered set, index 0, no
answers and results hidden. -/
theorem C4_load (s : QuizSession) (quiz : QuizMeta) (fetched : List Question) :
    (∀ q : Question,
        q ∈ fetched.filter (fun q => hasOptions q.options)
          ↔ (q ∈ fetched ∧ hasOptions q.options = true))
      ∧ (fetched.filter (fun q => hasOptions q.options) = [] →
          loadQuiz s quiz fetched = (s, some LoadError.notFoundOrEmpty))
      ∧ (fetched.filter (fun q => hasOptions q.options) ≠ [] →
          loadQuiz s quiz fetched
            = ({ selectedQuiz := some quiz
                 questions := fetched.filter (fun q => hasOptions q.options)
                 currentQuestionIndex := 0
                 userAnswers := []
                 showResults := false }, none)) := by
  refine ⟨fun q => ?_, fun h => ?_, fun h => ?_⟩
  · simp [List.mem_filter]
  · unfold loadQuiz
    rw [if_pos (by rw [h]; rfl)]
  · unfold loadQuiz
    rw [if_neg (by simpa [List.length_eq_zero] using h)]

/-- C4 witness: a fetch with one playable and one option-less question loads
only the playable one; a fetch with only option-less questions fails with the
error and returns the state unchanged. -/
theorem C4_load_witness :
    ([qNoOpt].filter (fun q => hasOptions q.options) = []
        ∧ loadQuiz sessionCex { id := "z2", title := "T2" } [qNoOpt]
            = (sessionCex, some LoadError.notFoundOrEmpty))
      ∧ ([qA, qNoOpt].filter (fun q => hasOptions q.options) ≠ []
        ∧ (loadQuiz sessionCex { id := "z2", title := "T2" } [qA, qNoOpt]).1.questions
            = [qA]) :=
  ⟨⟨by decide,
      (C4_load sessionCex { id := "z2", title := "T2" } [qNoOpt]).2.1 (by decide)⟩,
    ⟨by decide, by
      rw [(C4_load sessionCex { id := "z2", title := "T2" } [qA, qNoOpt]).2.2 (by decide)]
      decide⟩⟩

/-- C8: within an in-progress session, Next and Previous move the index by
exactly one, clamped to the valid range: Previous at 0 and Next at the last
index are no-ops, and any sequence of Next/Previous/answer-select operations
keeps the index inside `[0, count-1]` (the lower bound is inherent to `Nat`). -/
theorem C8_navigation (s : QuizSession) (ops : List QuizOp)
    (h : s.currentQuestionIndex < s.questions.length) :
    (applyOps ops s).currentQuestionIndex < (applyOps ops s).questions.length
      ∧ (applyOps ops s).questions = s.questions
      ∧ (s.currentQuestionIndex = 0 → handlePrevious s = s)
      ∧ (s.currentQuestionIndex = s.questions.length - 1 → handleNext s = s)
      ∧ (handleNext s).currentQuestionIndex
          = min (s.currentQuestionIndex + 1) (s.questions.length - 1)
      ∧ (handlePrevious s).currentQuestionIndex = s.currentQuestionIndex - 1 := by
  refine ⟨applyOps_index_lt ops s h, applyOps_questions ops s, fun h0 => ?_, fun hl => ?_,
    ?_, ?_⟩
  · unfold handlePrevious
    rw [if_neg (by omega)]
  · unfold handleNext
    rw [if_neg (by omega)]
  · unfold handleNext
    by_cases hc : s.currentQuestionIndex < s.questions.length - 1
    · rw [if_pos hc]
      show s.currentQuestionIndex + 1 = _
      omega
    · rw [if_neg hc]
      omega
  · unfold handlePrevious
    by_cases hc : s.currentQuestionIndex > 0
    · rw [if_pos hc]
    · rw [if_neg hc]
      omega

/-- C8 witness: in the three-question session at index 2 (the last), Next is a
no-op, Previous steps back to 1, and a mixed operation sequence stays in
bounds. -/
theorem C8_navigation_witness :
    sessionB.currentQuestionIndex < sessionB.questions.length
      ∧ handleNext sessionB = sessionB
      ∧ (handlePrevious sessionB).currentQuestionIndex = 1
      ∧ (applyOps [QuizOp.previous, QuizOp.previous, QuizOp.previous,
          QuizOp.next, QuizOp.select "c" "1", QuizOp.next, QuizOp.next,
          QuizOp.next] sessionB).currentQuestionIndex
          < (applyOps [QuizOp.previous, QuizOp.previous, QuizOp.previous,
              QuizOp.next, QuizOp.select "c" "1", QuizOp.next, QuizOp.next,
              QuizOp.next] sessionB).questions.length :=
  ⟨by decide,
    (C8_navigation sessionB [] (by decide)).2.2.2.1 (by decide),
    by decide,
    (C8_navigation sessionB [QuizOp.previous, QuizOp.previous, QuizOp.previous,
      QuizOp.next, QuizOp.select "c" "1", QuizOp.next, QuizOp.next,
      QuizOp.next] (by decide)).1⟩

/-- C2 counterexample: with a note-insert failure (and everything else
succeeding), the fan-out neither throws nor commits the Note (the step did
not "fully succeed or throw"), and the subsequent Flashcard step still runs
and commits -- contradicting the claim that each of the four steps either
fully succeeds or throws, a throw aborting all subsequent steps. -/
theorem C2_counterexample :
    (saveMaterialAndContent "u" "T" "C" "paste" gCex2 oNoteFails 1 2).threw = false
      ∧ (saveMaterialAndContent "u" "T" "C" "paste" gCex2 oNoteFails 1 2).rows.notes = []
      ∧ SaveStep.note
          ∈ (saveMaterialAndContent "u" "T" "C" "paste" gCex2 oNoteFails 1 2).attempted
      ∧ (saveMaterialAndContent "u" "T" "C" "paste" gCex2 oNoteFails 1 2).rows.flashcards
          ≠ [] := by
  decide

/-- C2 (amended): only the Material insert is error-checked: its failure
throws, aborts every subsequent step and commits nothing.  No other step's
failure throws -- a failed Note/Flashcard/Question insert is silently
ignored and later steps still run, and a failed Quiz insert silently skips
the Question insert.  Already-committed rows (the Material) are never rolled
back by later failures. -/
theorem C2_amended (userId t c st : String) (g : GeneratedData) (o : SaveOutcomes)
    (matId quizId : Nat) :
    (o.materialOk = false →
        saveMaterialAndContent userId t c st g o matId quizId
          = { rows := emptyRows, attempted := [SaveStep.material], threw := true })
      ∧ (o.materialOk = true →
          (saveMaterialAndContent userId t c st g o matId quizId).threw = false
          ∧ (saveMaterialAndContent userId t c st g o matId quizId).rows.materials
              = [{ id := matId, user_id := userId, title := t, content := c,
                   source_type := st, summary := g.summary }]
          ∧ (o.quizOk = false →
              (saveMaterialAndContent userId t c st g o matId quizId).rows.questions = []
              ∧ SaveStep.questions
                  ∉ (saveMaterialAndContent userId t c st g o matId quizId).attempted)) := by
  constructor
  · intro hm
    unfold saveMaterialAndContent
    rw [if_pos hm]
  · intro hm
    have hm' : ¬ (o.materialOk = false) := by rw [hm]; simp
    refine ⟨?_, ?_, fun hq => ⟨?_, ?_⟩⟩
    · unfold saveMaterialAndContent
      rw [if_neg hm']
    · unfold saveMaterialAndContent
      rw [if_neg hm']
    · unfold saveMaterialAndContent
      rw [if_neg hm']
      cases g.quiz_questions <;> simp [hq]
    · unfold saveMaterialAndContent
      rw [if_neg hm']
      cases g.quiz_questions <;> simp [hq]

/-- C2 witness: a failing material insert yields exactly the thrown, empty,
single-attempt run. -/
theorem C2_amended_witness :
    saveMaterialAndContent "u" "T" "C" "paste" gCex2 oMaterialFails 1 2
      = { rows := emptyRows, attempted := [SaveStep.material], threw := true } :=
  (C2_amended "u" "T" "C" "paste" gCex2 oMaterialFails 1 2).1 rfl

/-- C5 counterexample: `quiz_questions` present as an EMPTY array is JS-truthy
and passes `Array.isArray`, so the fan-out still inserts a Quiz row (with zero
Questions) -- contradicting the claim that step 4 runs iff `quiz_questions`
is non-empty. -/
theorem C5_counterexample :
    gCex5.quiz_questions = some []
      ∧ (saveMaterialAndContent "u" "T" "C" "paste" gCex5 allOk 1 2).rows.quizzes
          = [{ id := 2, user_id := "u", material_id := 1, title := "T - Quiz" }]
      ∧ (saveMaterialAndContent "u" "T" "C" "paste" gCex5 allOk 1 2).rows.questions
          = [] := by
  decide

/-- C5 (amended): with every insert succeeding the fan-out writes, in order:
(1) one Material capturing its id; (2) one Note referencing it iff
`key_points` or `examples` is present; (3) iff `flashcards` is a present
array, one Flashcard per entry with difficulty defaulting to "medium" when
absent (zero rows for the empty array); (4) iff `quiz_questions` is a present
array -- even an empty one -- one Quiz referencing the Material, then one
Question per entry referencing the Quiz id. -/
theorem C5_amended (userId t c st : String) (g : GeneratedData) (matId quizId : Nat) :
    (saveMaterialAndContent userId t c st g allOk matId quizId).rows.materials
        = [{ id := matId, user_id := userId, title := t, content := c,
             source_type := st, summary := g.summary }]
      ∧ (saveMaterialAndContent userId t c st g allOk matId quizId).rows.notes
          = (if g.key_points.isSome || g.examples.isSome then
              [{ user_id := userId, material_id := matId, title := t ++ " - Notes",
                 content := g.summary, key_points := g.key_points,
                 examples := g.examples }]
            else [])
      ∧ (saveMaterialAndContent userId t c st g allOk matId quizId).rows.flashcards
          = (g.flashcards.getD []).map (fun card =>
              { user_id := userId, material_id := matId, question := card.question,
                answer := card.answer,
                difficulty := jsOrString card.difficulty "medium" })
      ∧ (saveMaterialAndContent userId t c st g allOk matId quizId).rows.quizzes
          = (if g.quiz_questions.isSome then
              [{ id := quizId, user_id := userId, material_id := matId,
                 title := t ++ " - Quiz" }]
            else [])
      ∧ (saveMaterialAndContent userId t c st g allOk matId quizId).rows.questions
          = (g.quiz_questions.getD []).map (fun q =>
              { quiz_id := quizId, question_text := q.question,
                question_type := q.qtype, options := q.options,
                correct_answer := q.correct_answer, explanation := q.explanation })
      ∧ (saveMaterialAndContent userId t c st g allOk matId quizId).attempted
          = [SaveStep.material]
              ++ (if g.key_points.isSome || g.examples.isSome then [SaveStep.note]
                  else [])
              ++ (if g.flashcards.isSome then [SaveStep.flashcards] else [])
              ++ (if g.quiz_questions.isSome then [SaveStep.quiz, SaveStep.questions]
                  else [])
      ∧ (saveMaterialAndContent userId t c st g allOk matId quizId).threw = false := by
  cases hf : g.flashcards <;> cases hq : g.quiz_questions <;>
    simp [saveMaterialAndContent, allOk, hf, hq]

/-- C9: confirmed deletion issues the question delete strictly before the
quiz delete, leaves no question of that quiz and no such quiz row behind, and
updates the in-memory Browsing list by filtering, never re-fetching. -/
theorem C9_delete_quiz (st : DeleteState) (qid : String) :
    ((handleDeleteConfirm (some qid) st true true).1.dbQuestions
        = st.dbQuestions.filter (fun q => q.quiz_id ≠ qid))
      ∧ ((handleDeleteConfirm (some qid) st true true).1.dbQuizzes
          = st.dbQuizzes.filter (fun q => q.id ≠ qid))
      ∧ ((handleDeleteConfirm (some qid) st true true).1.quizzes
          = st.quizzes.filter (fun quiz => quiz.id ≠ qid))
      ∧ (handleDeleteConfirm (some qid) st true true).2.1
          = [DeleteEvent.deleteQuestionsOf qid, DeleteEvent.deleteQuizRow qid]
      ∧ DeleteEvent.refetchQuizzes ∉ (handleDeleteConfirm (some qid) st true true).2.1
      ∧ (∀ q : DbQuestion,
          q ∈ (handleDeleteConfirm (some qid) st true true).1.dbQuestions →
            q.quiz_id ≠ qid)
      ∧ (∀ q : QuizMeta,
          q ∈ (handleDeleteConfirm (some qid) st true true).1.dbQuizzes →
            q.id ≠ qid) := by
  refine ⟨rfl, rfl, rfl, rfl, by simp [handleDeleteConfirm], fun q hq => ?_, fun q hq => ?_⟩
  · simp [handleDeleteConfirm, List.mem_filter] at hq
    exact hq.2
  · simp [handleDeleteConfirm, List.mem_filter] at hq
    exact hq.2

/-- C9 witness: deleting quiz z1 from a store with two quizzes and three
questions removes both z1-questions before the quiz row and filters the
in-memory list. -/
theorem C9_delete_quiz_witness :
    (handleDeleteConfirm (some "z1") deleteStateW true true).1.quizzes
        = [{ id := "z2", title := "T2" }]
      ∧ (handleDeleteConfirm (some "z1") deleteStateW true true).1.dbQuestions
        = [{ id := "q3", quiz_id := "z2" }]
      ∧ (handleDeleteConfirm (some "z1") deleteStateW true true).2.1
        = [DeleteEvent.deleteQuestionsOf "z1", DeleteEvent.deleteQuizRow "z1"] :=
  ⟨by rw [(C9_delete_quiz deleteStateW "z1").2.2.1]; decide,
    by rw [(C9_delete_quiz deleteStateW "z1").1]; decide,
    (C9_delete_quiz deleteStateW "z1").2.2.2.1⟩

/-- C10 (implicit): the QuizAttempt row written at submit records
`total_questions` as the count of playable (options-filtered) questions
loaded into the session, and its percentage is divided by that same filtered
count -- questions dropped at load never enter the denominator. -/
theorem C10_attempt_denominator (s0 : QuizSession) (quiz : QuizMeta)
    (fetched : List Question) (ops : List QuizOp) (user : Option String)
    (insertOk : Bool)
    (h : fetched.countP (fun q => hasOptions q.options) ≠ 0) :
    (handleSubmit user (applyOps ops (loadQuiz s0 quiz fetched).1) insertOk).2.1.total_questions
        = fetched.countP (fun q => hasOptions q.options)
      ∧ (handleSubmit user (applyOps ops (loadQuiz s0 quiz fetched).1) insertOk).2.1.score
          = ((computeScoreSubmit (applyOps ops (loadQuiz s0 quiz fetched).1).questions
                (applyOps ops (loadQuiz s0 quiz fetched).1).userAnswers : ℚ)
              / (fetched.countP (fun q => hasOptions q.options) : ℚ)) * 100 := by
  have hlen : (fetched.filter (fun q => hasOptions q.options)).length
      = fetched.countP (fun q => hasOptions q.options) :=
    (List.countP_eq_length_filter _ _).symm
  have hload : (loadQuiz s0 quiz fetched).1.questions
      = fetched.filter (fun q => hasOptions q.options) := by
    unfold loadQuiz
    rw [if_neg (by rw [hlen]; exact h)]
  have hq2 : (applyOps ops (loadQuiz s0 quiz fetched).1).questions
      = fetched.filter (fun q => hasOptions q.options) := by
    rw [applyOps_questions, hload]
  rw [handleSubmit_row]
  dsimp only
  constructor
  · rw [hq2, hlen]
  · rw [hq2, hlen]

/-- C10 witness: loading a fetch of one playable and one option-less question
and submitting records total_questions = 1, not 2. -/
theorem C10_attempt_denominator_witness :
    ([qA, qNoOpt].countP (fun q => hasOptions q.options) = 1)
      ∧ (handleSubmit (some "u")
            (applyOps [QuizOp.select "a" "X"]
              (loadQuiz browsingState { id := "z1", title := "T" } [qA, qNoOpt]).1)
            true).2.1.total_questions = 1 :=
  ⟨by decide, by
    rw [(C10_attempt_denominator browsingState { id := "z1", title := "T" }
      [qA, qNoOpt] [QuizOp.select "a" "X"] (some "u") true (by decide)).1]
    decide⟩

/-- C7: an empty or whitespace-only topic (and likewise pasted text) is
rejected with the user-facing validation toast before anything else happens:
no edge-function invocation, no navigation, and no rows of any kind. -/
theorem C7_validation (userId topic text : String)
    (serverResult : Except GenError GeneratedData) (o : SaveOutcomes)
    (matId quizId : Nat)
    (ht : jsTrimStr topic = "") (hx : jsTrimStr text = "") :
    handleTopicGenerate userId topic serverResult o matId quizId
        = { events := [], rows := emptyRows,
            toasts := [Toast.error "Please enter a topic"] }
      ∧ handleTextSubmit userId text serverResult o matId quizId
        = { events := [], rows := emptyRows,
            toasts := [Toast.error "Please enter some text to analyze"] } := by
  constructor
  · unfold handleTopicGenerate
    rw [if_pos ht]
  · unfold handleTextSubmit
    rw [if_pos hx]

/-- C7 witness: three spaces are whitespace-only and rejected on both paths
with no events and no rows. -/
theorem C7_validation_witness :
    jsTrimStr "   " = ""
      ∧ (handleTopicGenerate "u" "   " (Except.error GenError.upstream) allOk 1 2).events
          = []
      ∧ (handleTextSubmit "u" "   " (Except.error GenError.upstream) allOk 1 2).rows
          = emptyRows := by
  have h := C7_validation "u" "   " "   " (Except.error GenError.upstream) allOk 1 2
    (by decide) (by decide)
  exact ⟨by decide, by rw [h.1], by rw [h.2]⟩

/-- C6: a response body wrapped in a labeled or unlabeled fenced code block
has the leading and trailing fences stripped before parsing, so a fenced
valid-JSON body parses successfully; and when parsing of the cleaned text
fails, the operation ends in the generation-format error and the client
(receiving the error from the edge function) persists nothing. -/
theorem C6_fence_strip (parse : List Char → Option GeneratedData) (body raw : List Char)
    (h1 : body.dropWhile Char.isWhitespace = body)
    (h2 : body.reverse.dropWhile Char.isWhitespace = body.reverse)
    (hne : body ≠ []) :
    cleanAIContent (fenceJson ++ ('\n' :: (body ++ ('\n' :: fence)))) = body
      ∧ cleanAIContent (fence ++ ('\n' :: (body ++ ('\n' :: fence)))) = body
      ∧ (∀ g, parse body = some g →
          processAIContent parse (fenceJson ++ ('\n' :: (body ++ ('\n' :: fence))))
            = Except.ok g)
      ∧ (parse (cleanAIContent raw) = none →
          processAIContent parse raw = Except.error GenError.formatError
          ∧ (∀ (userId topic : String) (o : SaveOutcomes) (matId quizId : Nat),
              (handleTopicGenerate userId topic
                  (Except.error GenError.formatError) o matId quizId).rows
                = emptyRows)
          ∧ (∀ (userId text : String) (o : SaveOutcomes) (matId quizId : Nat),
              (handleTextSubmit userId text
                  (Except.error GenError.formatError) o matId quizId).rows
                = emptyRows)) := by
  have hc := cleanAIContent_fenced_json body h1 h2 hne
  refine ⟨hc, cleanAIContent_fenced_plain body h1 h2 hne, fun g hg => ?_,
    fun hp => ⟨?_, fun userId topic o matId quizId => ?_,
      fun userId text o matId quizId => ?_⟩⟩
  · unfold processAIContent
    rw [hc, hg]
  · unfold processAIContent
    rw [hp]
  · unfold handleTopicGenerate
    split_ifs <;> rfl
  · unfold handleTextSubmit
    split_ifs <;> rfl

/-- C6 witness: the fenced body `[1]` is stripped and parsed by a concrete
parser that accepts exactly that body. -/
theorem C6_fence_strip_witness :
    parseW bodyW = some gW
      ∧ processAIContent parseW (fenceJson ++ ('\n' :: (bodyW ++ ('\n' :: fence))))
          = Except.ok gW :=
  ⟨by decide,
    (C6_fence_strip parseW bodyW bodyW (by decide) (by decide) (by decide)).2.2.1
      gW (by decide)⟩

end Iaura
